import Mathlib

/-!
Shallow embedding of the "Tales" realtime trivia/chat backend
(`src/unnamed/part_000`, `src/server.js`, `src/unnamed/part_001`).

JavaScript strings become `String`, numbers become `Nat`/`Int`,
`null`/`undefined` become `Option`, Mongo documents become structures,
collections become lists, and the socket handlers become pure functions
from a store plus the event payload to an updated store plus the ordered
list of emitted events.  Apostrophes inside source string literals are
written with the escape `\x27`.
-/

namespace Tales

/-- JavaScript runtime errors that the embedded handlers can raise.
`referenceError n` models `ReferenceError: n is not defined`, thrown when
an identifier that no enclosing scope binds is read. -/
inductive JsError where
  | referenceError (name : String)
deriving Repr, DecidableEq

/-- JS `v || dflt` for an optional string field: `undefined` and the empty
string are falsy and select the default. -/
def jsOrStr (v : Option String) (dflt : String) : String :=
  match v with
  | some s => if s == "" then dflt else s
  | none => dflt

/-- JS `String.prototype.toLowerCase` restricted to the ASCII range, which
covers every string the handlers compare: lower-case every character. -/
def jsToLower (s : String) : String := ⟨s.data.map Char.toLower⟩

/-- JS `String.prototype.includes`: substring containment. -/
def jsIncludes (hay needle : String) : Bool :=
  (List.range (hay.data.length + 1)).any (fun i => needle.data.isPrefixOf (hay.data.drop i))

/-! ## Gift reference data (`part_000` lines 146-155)

Mongo assigns each seeded gift an opaque unique `_id`; since the eight
seeded names are pairwise distinct, the name serves as the document id in
the embedding. -/

/-- A Gift document (`giftSchema`, lines 91-98; `effects` is unused). -/
structure Gift where
  name : String
  description : String
  icon : String
  rarity : String
  value : Nat
deriving Repr, DecidableEq

/-- The `defaultGifts` rows (lines 146-155) that `initGifts` seeds. -/
def defaultGifts : List Gift :=
  [ ⟨"Mystery Box", "Contains a random surprise!", "🎁", "common", 10⟩,
    ⟨"Golden Key", "Unlocks secret areas", "🗝️", "rare", 50⟩,
    ⟨"Crystal Ball", "See the future... or hints", "🔮", "epic", 100⟩,
    ⟨"Phoenix Feather", "Revive from mistakes", "🪶", "legendary", 500⟩,
    ⟨"Time Crystal", "Pause the game timer", "⏳", "epic", 200⟩,
    ⟨"Truth Serum", "Get an extra hint", "🧪", "rare", 75⟩,
    ⟨"Shadow Cloak", "Hide your presence", "🧥", "legendary", 1000⟩,
    ⟨"Memory Orb", "Recall past clues", "🔮", "epic", 150⟩ ]

/-- Lookup `Gift.findOne` by name against the seeded collection. -/
def findGift (name : String) : Option Gift :=
  defaultGifts.find? (fun g => g.name == name)

/-! ## Clue grader (`part_000` lines 383-401)

The `submit-answer` handler initialises `correct = false`, `response = ''`,
`giftReward = null` and runs a `switch (clueId)` that has cases only for
`1` and `2`; any other clue id falls through with the initial values. -/

/-- Outcome of the grading switch: the local variables `correct`,
`response`, `giftReward` after the `switch`. -/
structure GradeResult where
  correct : Bool
  response : String
  giftReward : Option String
deriving Repr, DecidableEq

def clue1RightText : String :=
  "✨ Correct! James comes from Kyengera. You have found the first piece of truth!"

def clue1WrongText : String :=
  "❌ Not quite. Think about what James would say to your mum..."

def clue2RightText : String :=
  "🎉 Amazing! Znob reversed is Bonz. You\x27ve cracked the code!"

def clue2WrongText : String :=
  "💭 The answer is hidden in reverse. Try looking at it differently..."

/-- The grading `switch` of the `submit-answer` handler.
Clue 1 compares the answer to "D" with strict equality (case-sensitive);
clue 2 lower-cases the answer and compares it to "bonz", on success
setting the gift reward to "Golden Key".  There is no `default` case. -/
def grade (clueId : Int) (answer : String) : GradeResult :=
  if clueId = 1 then
    let c := answer == "D"
    ⟨c, if c then clue1RightText else clue1WrongText, none⟩
  else if clueId = 2 then
    let c := jsToLower answer == "bonz"
    ⟨c, if c then clue2RightText else clue2WrongText,
      if c then some "Golden Key" else none⟩
  else
    ⟨false, "", none⟩

/-- The generic fallback hint of the `request-hint` handler (line 459),
the only "generic fallback hint text" the file contains. -/
def fallbackHintText : String :=
  "Trust your intuition. The answer is closer than you think."

/-! ## Host reply reference data (`part_000` lines 167-175) -/

/-- One row of the host reply table (`hostReplySchema`). -/
structure HostReplyRule where
  keyword : String
  response : String
  category : String
  emotion : String
  giftReward : Option String
deriving Repr, DecidableEq

/-- The `hostReplies` rows (lines 167-175) that `initHostReplies` seeds. -/
def hostReplies : List HostReplyRule :=
  [ ⟨"james", "James... ah yes, the one who calls late at night. His name reversed holds the truth.", "clue", "mysterious", none⟩,
    ⟨"bonz", "You found it! Znob reversed is Bonz. You\x27re getting closer to the truth!", "success", "excited", some "Golden Key"⟩,
    ⟨"kyengera", "Correct! James comes from Kyengera. Now who could he be?", "clue", "pleased", none⟩,
    ⟨"love", "Love in the shadows is complicated. A\x27 and -oo7\x27s story teaches us that.", "story", "nostalgic", none⟩,
    ⟨"truth", "The truth is like light - sometimes blinding, sometimes subtle. Keep seeking.", "philosophical", "wise", none⟩,
    ⟨"help", "I\x27m here to guide you. Ask me anything about the story or clues.", "assistance", "helpful", none⟩,
    ⟨"gift", "Ah, you\x27ve earned something special! *grants you a mystery box*", "reward", "generous", some "Mystery Box"⟩ ]

/-- The value of the local `hostResponse` variable in `send-message`:
response text, emotion tag, optional gift reward. -/
structure HostResp where
  response : String
  emotion : String
  giftReward : Option String
deriving Repr, DecidableEq

/-- The `generalResponses` fallback pool (lines 304-310) used when no
keyword matches. -/
def generalResponses : List String :=
  [ "Interesting perspective. Tell me more about what you\x27re thinking.",
    "The shadows hold many secrets. What else do you wonder about?",
    "Every question brings you closer to the truth. Keep asking.",
    "I sense you\x27re on the right path. Trust your instincts.",
    "The tale of A\x27 and -oo7 continues to unfold with each question." ]

/-- The keyword loop at line 295 iterates `Object.entries(hostRepliesMap)`.
The module scope of `part_000` binds `hostReplies` (an array, lines
167-175) but never binds `hostRepliesMap`, so reading that identifier
throws a `ReferenceError`.  This constant is the (absent) binding the loop
reads: an entry list of keyword/reply pairs when defined. -/
def hostRepliesMapBinding : Option (List (String × HostResp)) := none

/-- First matching entry of the keyword loop: keep the reply of the first
entry whose keyword is a substring of the lower-cased message. -/
def scanEntries (entries : List (String × HostResp)) (lowerMessage : String) : Option HostResp :=
  match entries with
  | [] => none
  | (keyword, reply) :: rest =>
      if jsIncludes lowerMessage keyword then some reply
      else scanEntries rest lowerMessage

/-- Host response resolution inside `send-message` (lines 291-315):
lower-case the message, scan `Object.entries(hostRepliesMap)` for the
first keyword contained in it, and fall back to a random element of
`generalResponses` with emotion `thoughtful` and no reward.  `randIdx`
stands for `Math.floor(Math.random() * generalResponses.length)`.
Reading `hostRepliesMap` raises `ReferenceError` because the identifier
is unbound, so the resolution always fails before scanning. -/
def resolveHost (message : String) (randIdx : Nat) : Except JsError HostResp :=
  let lowerMessage := jsToLower message
  match hostRepliesMapBinding with
  | none => .error (.referenceError "hostRepliesMap")
  | some entries =>
      match scanEntries entries lowerMessage with
      | some reply => .ok reply
      | none =>
          .ok ⟨(generalResponses.getD (randIdx % generalResponses.length) ""), "thoughtful", none⟩

/-! ## Documents and the store -/

/-- A Session document (`sessionSchema`, lines 57-75).  The auth-related
denormalized fields (`playerId`, `hostId`, `hostName`) and the embedded
`messages` array (never written by any handler) are omitted.
`cluesSolved` is a document field addressed by the `submit-answer`
`$inc`; the backing store is modelled as a schemaless document
collaborator that applies the update as issued. -/
structure Session where
  sessionId : String
  playerName : String
  status : String
  currentClue : Int
  score : Nat
  hintsUsed : Nat
  cluesSolved : Nat
  timeStarted : Nat
deriving Repr, DecidableEq

/-- A Message document (`messageSchema`, lines 78-88; unused fields
omitted).  Timestamps are abstract clock readings (`Nat`). -/
structure Msg where
  sessionId : String
  senderName : String
  message : String
  mtype : String
  timestamp : Nat
deriving Repr, DecidableEq

/-- One entry of an inventory's `gifts` array (lines 103-107). -/
structure InvEntry where
  giftId : String
  quantity : Nat
deriving Repr, DecidableEq

/-- An Inventory document (`inventorySchema`, lines 101-113;
`achievements` and `totalScore` are never touched by the handlers). -/
structure Inventory where
  userId : String
  gifts : List InvEntry
deriving Repr, DecidableEq

/-- The Mongo collections the realtime handlers touch. -/
structure Store where
  sessions : List Session
  messages : List Msg
  inventories : List Inventory
deriving Repr, DecidableEq

/-- Lookup `Session.findOne` by session id. -/
def findSession (sessions : List Session) (sid : String) : Option Session :=
  sessions.find? (fun s => s.sessionId == sid)

/-- Update `Session.findOneAndUpdate` by session id: apply `f` to the
first matching document, leave the rest unchanged; no-op when no
document matches. -/
def findOneAndUpdate (sessions : List Session) (sid : String) (f : Session → Session) : List Session :=
  match sessions with
  | [] => []
  | s :: rest =>
      if s.sessionId == sid then f s :: rest
      else s :: findOneAndUpdate rest sid f

/-- Lookup `Inventory.findOne` by user id. -/
def findInventory (invs : List Inventory) (uid : String) : Option Inventory :=
  invs.find? (fun i => i.userId == uid)

/-- Persist `inventory.save()`: replace the user's document, or insert it when the
user had none (the `new Inventory` case). -/
def saveInventory (invs : List Inventory) (inv : Inventory) : List Inventory :=
  match invs with
  | [] => [inv]
  | i :: rest =>
      if i.userId == inv.userId then inv :: rest
      else i :: saveInventory rest inv

/-! ## Emitted realtime events

The core is single-threaded: the order of the returned list is the order
the handler issues `emit` calls.  `room` events go through
`io.to(roomName)`, `sock` events through `socket.emit`. -/

inductive Target where
  | room
  | sock
deriving Repr, DecidableEq

inductive Emission where
  | systemMessage (message : String) (timestamp : Nat)
  | gameJoined (sessionId : String) (playerName : Option String) (status : String)
  | messageHistory (msgs : List Msg)
  | newMessage (sender : String) (message : String) (mtype : String) (timestamp : Nat)
  | hostResponse (message : String) (emotion : String) (timestamp : Nat)
  | receiveGift (gift : String) (name : String) (rarity : String)
  | answerCorrect (clueId : Int) (message : String) (nextClue : Int)
  | answerWrong (message : String)
  | receiveHint (clueId : Int) (hint : String) (usedBy : String)
deriving Repr, DecidableEq

/-- An emission together with its destination. -/
abbrev Emit := Target × Emission

/-! ## Message log read path -/

/-- Insert a message into a timestamp-descending list, keeping earlier
list elements first on ties (the store's sort is by `timestamp: -1`). -/
def insertDesc (m : Msg) : List Msg → List Msg
  | [] => [m]
  | x :: xs =>
      if m.timestamp > x.timestamp then m :: x :: xs
      else x :: insertDesc m xs

/-- Sort a message list by descending timestamp (`.sort({ timestamp: -1 })`). -/
def sortDesc : List Msg → List Msg
  | [] => []
  | m :: ms => insertDesc m (sortDesc ms)

/-- The recent-history read path (`part_000` lines 256-261, and
`server.js` lines 371-380 without the session filter):
`Message.find({ sessionId }).sort({ timestamp: -1 }).limit(limit)`
followed by `.reverse()`. -/
def recentHistory (log : List Msg) (sid : String) (limit : Nat) : List Msg :=
  (((sortDesc (log.filter (fun m => m.sessionId == sid))).take limit).reverse)

/-! ## `join-game` handler (`part_000` lines 219-262) -/

def welcomeText : String :=
  "Welcome to The Tales, brave adventurer! I am your host. Ask me anything."

/-- The `join-game` handler: find the session or create it (status
`waiting`, schema defaults `currentClue = 1`, `score = 0`,
`hintsUsed = 0`, `cluesSolved = 0`, `timeStarted = now`), persist a
one-time welcome system message on creation and broadcast it, then emit
`game-joined` and the recent history to the joining socket. -/
def joinGame (st : Store) (sessionId : String) (playerName : Option String) (now : Nat) : Store × List Emit :=
  match findSession st.sessions sessionId with
  | some session =>
      (st,
        [ (Target.sock, .gameJoined sessionId playerName session.status),
          (Target.sock, .messageHistory (recentHistory st.messages sessionId 50)) ])
  | none =>
      let session : Session :=
        { sessionId := sessionId
          playerName := jsOrStr playerName "Adventurer"
          status := "waiting"
          currentClue := 1
          score := 0
          hintsUsed := 0
          cluesSolved := 0
          timeStarted := now }
      let welcomeMsg : Msg := ⟨sessionId, "Host", welcomeText, "system", now⟩
      let st1 : Store :=
        { st with
          sessions := st.sessions ++ [session]
          messages := st.messages ++ [welcomeMsg] }
      (st1,
        [ (Target.room, .systemMessage welcomeText now),
          (Target.sock, .gameJoined sessionId playerName session.status),
          (Target.sock, .messageHistory (recentHistory st1.messages sessionId 50)) ])

/-! ## Gift granting (`part_000` lines 335-364)

The idempotent inventory upsert lives in the delayed host-reply callback
of `send-message`: find the existing entry for the gift and increment its
quantity, else push a new entry with quantity 1. -/

/-- In-place `existingGift.quantity += 1` on the first matching entry. -/
def bumpFirst : List InvEntry → String → List InvEntry
  | [], _ => []
  | e :: es, gid =>
      if e.giftId == gid then { e with quantity := e.quantity + 1 } :: es
      else e :: bumpFirst es gid

/-- The upsert over the `gifts` array: `find` the entry whose `giftId`
matches; on a hit bump that entry's quantity in place, otherwise push
`{ giftId, quantity: 1 }`. -/
def grantGifts (gifts : List InvEntry) (gid : String) : List InvEntry :=
  match gifts.find? (fun g => g.giftId == gid) with
  | some _ => bumpFirst gifts gid
  | none => gifts ++ [⟨gid, 1⟩]

/-- The guarded gift-grant phase (lines 335-364): when the resolved host
reply carries a `giftReward`, look up the Gift by name; only when the
gift exists **and** the socket carries a `userId` is the user's inventory
upserted (lazily created if absent) and a `receive-gift` broadcast
emitted.  Otherwise the whole phase is a silent no-op. -/
def giftGrantPhase (invs : List Inventory) (userId : Option String) (giftReward : Option String) : List Inventory × List Emit :=
  match giftReward with
  | none => (invs, [])
  | some rewardName =>
      match findGift rewardName, userId with
      | some gift, some uid =>
          let inventory := (findInventory invs uid).getD ⟨uid, []⟩
          let inventory := { inventory with gifts := grantGifts inventory.gifts gift.name }
          (saveInventory invs inventory,
            [(Target.room, .receiveGift gift.icon gift.name gift.rarity)])
      | _, _ => (invs, [])

/-! ## `send-message` handler (`part_000` lines 265-366) -/

/-- The `send-message` handler.  It persists the player's message and
broadcasts `new-message`; it then resolves the host reply, whose keyword
loop reads the unbound identifier `hostRepliesMap` and therefore throws —
the returned `Option JsError` carries that error and the delayed
host-reply callback (persist host message, `host-response` broadcast,
gift grant) is never scheduled.  The `.ok` branch embeds that callback as
the source writes it.  `now` is the wall clock; `now + delay` stands for
the 2000 ms typing-simulation timer. -/
def sendMessage (st : Store) (userId : Option String) (username : Option String)
    (sessionId : String) (message : String) (mtype : String)
    (now delay randIdx : Nat) : Store × List Emit × Option JsError :=
  let newMsg : Msg := ⟨sessionId, jsOrStr username "Player", message, mtype, now⟩
  let st1 : Store := { st with messages := st.messages ++ [newMsg] }
  let emits : List Emit := [(Target.room, .newMessage (jsOrStr username "Player") message mtype now)]
  match resolveHost message randIdx with
  | .error e => (st1, emits, some e)
  | .ok hostResp =>
      let hostMsg : Msg := ⟨sessionId, "Host", hostResp.response, "system", now + delay⟩
      let st2 : Store := { st1 with messages := st1.messages ++ [hostMsg] }
      let (invs, giftEmits) := giftGrantPhase st2.inventories userId hostResp.giftReward
      ({ st2 with inventories := invs },
        emits ++ [(Target.room, .hostResponse hostResp.response hostResp.emotion (now + delay))] ++ giftEmits,
        none)

/-! ## `submit-answer` handler (`part_000` lines 379-434) -/

/-- The `submit-answer` handler.  Grade via the `switch`; on success
update the session (`$inc: { score: 100, cluesSolved: 1 }`,
`currentClue: clueId + 1`), broadcast `answer-correct`, and — when a
`giftReward` is attached, the Gift resolves and the socket has a
`userId` — broadcast `receive-gift`.  The `// Award gift` block performs
no inventory write.  On failure emit `answer-wrong` to the socket only. -/
def submitAnswer (st : Store) (userId : Option String) (sessionId : String)
    (clueId : Int) (answer : String) : Store × List Emit :=
  let g := grade clueId answer
  if g.correct then
    let sessions := findOneAndUpdate st.sessions sessionId (fun s =>
      { s with
        score := s.score + 100
        cluesSolved := s.cluesSolved + 1
        currentClue := clueId + 1 })
    let correctEmit : Emit := (Target.room, .answerCorrect clueId g.response (clueId + 1))
    let giftEmits : List Emit :=
      match g.giftReward with
      | some rewardName =>
          match findGift rewardName, userId with
          | some gift, some _ => [(Target.room, .receiveGift gift.icon gift.name gift.rarity)]
          | _, _ => []
      | none => []
    ({ st with sessions := sessions }, correctEmit :: giftEmits)
  else
    (st, [(Target.sock, .answerWrong g.response)])

/-! ## `request-hint` handler (`part_000` lines 449-468) -/

/-- The handler's `hints` object literal. -/
def hintsTable : List (Int × String) :=
  [ (1, "Think about where James is from. The answer starts with \x27K\x27 and ends with \x27A\x27."),
    (2, "Look at option A. What happens if you read it backwards?"),
    (3, "The story of A\x27 and -oo7 holds the key to understanding the truth.") ]

/-- The `request-hint` handler: pick `hints[clueId]` or the generic
fallback, `$inc` the session's `hintsUsed`, broadcast `receive-hint`. -/
def requestHint (st : Store) (username : Option String) (sessionId : String)
    (clueId : Int) : Store × List Emit :=
  let hint := ((hintsTable.find? (fun p => p.1 == clueId)).map Prod.snd).getD fallbackHintText
  let sessions := findOneAndUpdate st.sessions sessionId (fun s =>
    { s with hintsUsed := s.hintsUsed + 1 })
  ({ st with sessions := sessions },
    [(Target.room, .receiveHint clueId hint (jsOrStr username "Player"))])

/-! ## `POST /api/progress` (`server.js` lines 269-304; `part_001` lines
170-194 is the same user logic without the level unlock) -/

/-- The progress-relevant fields of a User document
(`server.js` `userSchema`, lines 53-62). -/
structure PUser where
  username : String
  level : Nat
  gems : Nat
  score : Nat
  completedLevels : List Int
deriving Repr, DecidableEq

/-- A Level document (`levelSchema`, lines 64-73; only the fields the
progress route touches). -/
structure LevelDoc where
  levelId : Int
  title : String
  correct : String
  unlocked : Bool
deriving Repr, DecidableEq

/-- Update `Level.updateOne` by level id, setting the unlocked flag. -/
def unlockLevel (levels : List LevelDoc) (lid : Int) : List LevelDoc :=
  match levels with
  | [] => []
  | l :: rest =>
      if l.levelId == lid then { l with unlocked := true } :: rest
      else l :: unlockLevel rest lid

/-- The JSON body of the progress route's success response. -/
structure ProgressResponse where
  success : Bool
  level : Nat
  gems : Nat
  score : Nat
  completedLevels : List Int
deriving Repr, DecidableEq

/-- JS `v || dflt` for an optional numeric field: `undefined` and `0` are
falsy and select the default. -/
def jsOrNum (v : Option Nat) (dflt : Nat) : Nat :=
  match v with
  | some n => if n == 0 then dflt else n
  | none => dflt

/-- The `POST /api/progress` handler body after the user lookup succeeds:
when `completed` holds and `levelId` is not yet in
`user.completedLevels`, push it, add `score || 100` to the score,
`gems || 20` to the gems, recompute `level = floor(score / 100) + 1`,
and unlock the next level; otherwise mutate nothing.  Always respond
with success and the user's (possibly updated) current values. -/
def postProgress (user : PUser) (levels : List LevelDoc) (levelId : Int)
    (completed : Bool) (scoreArg gemsArg : Option Nat) :
    PUser × List LevelDoc × ProgressResponse :=
  let (user, levels) :=
    if completed && !(user.completedLevels.contains levelId) then
      let score := user.score + jsOrNum scoreArg 100
      (({ user with
          completedLevels := user.completedLevels ++ [levelId]
          score := score
          gems := user.gems + jsOrNum gemsArg 20
          level := score / 100 + 1 } : PUser),
        unlockLevel levels (levelId + 1))
    else
      (user, levels)
  (user, levels, ⟨true, user.level, user.gems, user.score, user.completedLevels⟩)

/-- Session status as observed through a lookup, for stating the
lifecycle properties. -/
def statusOf (st : Store) (sid : String) : Option String :=
  (findSession st.sessions sid).map Session.status

/-- Number of welcome system messages the log holds for a session. -/
def countWelcome (msgs : List Msg) (sid : String) : Nat :=
  (msgs.filter (fun m =>
    m.sessionId == sid && m.senderName == "Host" &&
    m.mtype == "system" && m.message == welcomeText)).length

/-- Number of inventory entries for a given gift id. -/
def entryCount (gifts : List InvEntry) (gid : String) : Nat :=
  (gifts.filter (fun g => g.giftId == gid)).length

/-- Held quantity of a gift: the quantity of the entry `find` locates,
`0` when the user holds none. -/
def qtyOf (gifts : List InvEntry) (gid : String) : Nat :=
  match gifts.find? (fun g => g.giftId == gid) with
  | some e => e.quantity
  | none => 0

/-- A store holding one fresh waiting session for user `u1`, who owns an
empty inventory document. -/
def demoStore : Store :=
  { sessions := [⟨"s1", "Alice", "waiting", 1, 0, 0, 0, 0⟩]
    messages := []
    inventories := [⟨"u1", []⟩] }

/-- A 60-message log for session `s8` with timestamps `0, 1, ..., 59`. -/
def demoLog : List Msg :=
  (List.range 60).map (fun i => ⟨"s8", "P", "m", "text", i⟩)

/-! # Helper lemmas -/

theorem findSession_findOneAndUpdate_self (ss : List Session) (sid : String)
    (f : Session → Session) (hf : ∀ s, (f s).sessionId = s.sessionId) :
    findSession (findOneAndUpdate ss sid f) sid = (findSession ss sid).map f := by
  induction ss with
  | nil => rfl
  | cons s rest ih =>
    by_cases h : s.sessionId = sid
    · simp [findOneAndUpdate, findSession, h, hf]
    · simp only [findOneAndUpdate, findSession] at *
      rw [if_neg (by simp [h]), List.find?_cons_of_neg _ (by simp [h]),
        List.find?_cons_of_neg _ (by simp [h]), ih]

theorem statusOf_findOneAndUpdate (ss : List Session) (sid sid2 : String)
    (f : Session → Session) (hfid : ∀ s, (f s).sessionId = s.sessionId)
    (hfst : ∀ s, (f s).status = s.status) :
    (findSession (findOneAndUpdate ss sid f) sid2).map Session.status =
      (findSession ss sid2).map Session.status := by
  induction ss with
  | nil => rfl
  | cons s rest ih =>
    by_cases h : s.sessionId = sid
    · by_cases h2 : s.sessionId = sid2
      · simp only [findOneAndUpdate, findSession]
        rw [if_pos (by simp [h]), List.find?_cons_of_pos _ (by simp [hfid, h2]),
          List.find?_cons_of_pos _ (by simp [h2])]
        simp [hfst]
      · simp only [findOneAndUpdate, findSession]
        rw [if_pos (by simp [h]), List.find?_cons_of_neg _ (by simp [hfid, h2]),
          List.find?_cons_of_neg _ (by simp [h2])]
    · by_cases h2 : s.sessionId = sid2
      · simp only [findOneAndUpdate, findSession]
        rw [if_neg (by simp [h]), List.find?_cons_of_pos _ (by simp [h2]),
          List.find?_cons_of_pos _ (by simp [h2])]
      · simp only [findOneAndUpdate, findSession] at *
        rw [if_neg (by simp [h]), List.find?_cons_of_neg _ (by simp [h2]),
          List.find?_cons_of_neg _ (by simp [h2]), ih]

theorem insertDesc_of_le (m : Msg) (l : List Msg)
    (h : ∀ x ∈ l, m.timestamp ≤ x.timestamp) : insertDesc m l = l ++ [m] := by
  induction l with
  | nil => rfl
  | cons x xs ih =>
    have hx : ¬ m.timestamp > x.timestamp := by
      exact Nat.not_lt.mpr (h x (List.mem_cons_self x xs))
    simp only [insertDesc, if_neg hx]
    rw [ih (fun y hy => h y (List.mem_cons_of_mem x hy))]
    rfl

theorem sortDesc_of_ascending (l : List Msg)
    (h : l.Pairwise (fun a b => a.timestamp < b.timestamp)) :
    sortDesc l = l.reverse := by
  induction l with
  | nil => rfl
  | cons m ms ih =>
    rcases List.pairwise_cons.mp h with ⟨hm, hms⟩
    simp only [sortDesc]
    rw [ih hms, insertDesc_of_le m ms.reverse
      (fun x hx => Nat.le_of_lt (hm x (List.mem_reverse.mp hx)))]
    simp

theorem entryCount_bumpFirst (gifts : List InvEntry) (gid gid2 : String) :
    entryCount (bumpFirst gifts gid) gid2 = entryCount gifts gid2 := by
  induction gifts with
  | nil => rfl
  | cons e es ih =>
    simp only [entryCount] at ih ⊢
    cases hb : (e.giftId == gid) with
    | true =>
      simp only [bumpFirst]
      rw [if_pos hb]
      simp only [List.filter_cons]
      by_cases h2 : e.giftId = gid2 <;> simp [h2]
    | false =>
      simp only [bumpFirst]
      rw [if_neg (by simp [hb])]
      simp only [List.filter_cons]
      by_cases h2 : e.giftId = gid2 <;> simp [h2, ih]

theorem find?_bumpFirst (gifts : List InvEntry) (gid : String) (e : InvEntry)
    (h : gifts.find? (fun g => g.giftId == gid) = some e) :
    (bumpFirst gifts gid).find? (fun g => g.giftId == gid) =
      some { e with quantity := e.quantity + 1 } := by
  induction gifts with
  | nil => simp at h
  | cons x xs ih =>
    cases hb : (x.giftId == gid) with
    | true =>
      simp only [List.find?, hb] at h
      cases h
      simp only [bumpFirst]
      rw [if_pos hb]
      simp only [List.find?]
      simp [hb]
    | false =>
      simp only [List.find?, hb] at h
      simp only [bumpFirst]
      rw [if_neg (by simp [hb])]
      simp only [List.find?, hb]
      exact ih h

theorem entryCount_eq_zero_of_find?_none (gifts : List InvEntry) (gid : String)
    (h : gifts.find? (fun g => g.giftId == gid) = none) :
    entryCount gifts gid = 0 := by
  simp only [entryCount, List.length_eq_zero, List.filter_eq_nil_iff]
  intro g hg
  exact List.find?_eq_none.mp h g hg

theorem entryCount_grantGifts_le (gifts : List InvEntry) (gid gid2 : String)
    (h : entryCount gifts gid2 ≤ 1) :
    entryCount (grantGifts gifts gid) gid2 ≤ 1 := by
  cases hf : gifts.find? (fun g => g.giftId == gid) with
  | some e =>
    simp only [grantGifts, hf, entryCount_bumpFirst]
    exact h
  | none =>
    simp only [grantGifts, hf]
    by_cases h2 : gid2 = gid
    · subst h2
      have h0 : entryCount gifts gid2 = 0 :=
        entryCount_eq_zero_of_find?_none gifts gid2 hf
      simp only [entryCount, List.filter_append, List.length_append] at h0 ⊢
      simp [h0, List.filter_cons]
    · have hne : gid ≠ gid2 := fun hh => h2 hh.symm
      simp only [entryCount, List.filter_append, List.length_append] at h ⊢
      simp [List.filter_cons, hne, h]

/-! # Claim theorems -/

/-- C4 counterexample: grading an unknown clue id yields `correct = false`
with an **empty** narrative, not the generic fallback hint text the claim
asserts (the only generic fallback hint the file contains is the
`request-hint` default). -/
theorem c4_unknown_clue_counterexample :
    grade 99 "anything" = ⟨false, "", none⟩ ∧
    (grade 99 "anything").response ≠ fallbackHintText := by
  constructor
  · rfl
  · decide

/-- C4 (amended): the clue grader satisfies the reference values —
`grade(1, "D")` correct, `grade(1, "A")` and `grade(1, "d")` incorrect
(clue 1 is case-sensitive), `grade(2, "bonz")` and `grade(2, "BONZ")`
correct with reward `"Golden Key"` (clue 2 is case-insensitive) — and for
every clue id outside `{1, 2}` and every answer the result is incorrect
with an empty narrative and no reward. -/
theorem c4_grade_reference_values :
    grade 1 "D" = ⟨true, clue1RightText, none⟩ ∧
    grade 1 "A" = ⟨false, clue1WrongText, none⟩ ∧
    grade 1 "d" = ⟨false, clue1WrongText, none⟩ ∧
    grade 2 "bonz" = ⟨true, clue2RightText, some "Golden Key"⟩ ∧
    grade 2 "BONZ" = ⟨true, clue2RightText, some "Golden Key"⟩ ∧
    ∀ (clueId : Int) (answer : String), clueId ≠ 1 → clueId ≠ 2 →
      grade clueId answer = ⟨false, "", none⟩ := by
  refine ⟨rfl, rfl, rfl, rfl, rfl, ?_⟩
  intro clueId answer h1 h2
  simp [grade, h1, h2]

/-- C4 witness: the universally quantified fallback clause of
`c4_grade_reference_values` evaluated at clue id 99. -/
theorem c4_grade_reference_values_witness :
    grade 99 "x" = ⟨false, "", none⟩ :=
  c4_grade_reference_values.2.2.2.2.2 99 "x" (by decide) (by decide)

/-- C1: an authenticated user submitting the correct answer `"bonz"` to
clue 2 gets the `answer-correct` broadcast followed by the `receive-gift`
broadcast (the claimed ordering), but the handler performs **no**
inventory write — the `// Award gift` block only broadcasts — so the
Golden Key is never added to the submitter's Reward Holding, contradicting
the claim. -/
theorem c1_goldenKey_never_persisted :
    (submitAnswer demoStore (some "u1") "s1" 2 "bonz").2 =
      [(Target.room, .answerCorrect 2 clue2RightText 3),
       (Target.room, .receiveGift "🗝️" "Golden Key" "rare")] ∧
    (submitAnswer demoStore (some "u1") "s1" 2 "bonz").1.inventories =
      demoStore.inventories ∧
    qtyOf ((findInventory
      (submitAnswer demoStore (some "u1") "s1" 2 "bonz").1.inventories
      "u1").getD ⟨"u1", []⟩).gifts "Golden Key" = 0 := by
  refine ⟨rfl, rfl, rfl⟩

/-- C2 counterexample: a correct first answer leaves a waiting session
`waiting` (the claim says it becomes `active`), and solving the final
clue 2 also leaves it `waiting` (the claim says `completed`). -/
theorem c2_status_counterexample :
    statusOf (submitAnswer demoStore none "s1" 1 "D").1 "s1" = some "waiting" ∧
    statusOf (submitAnswer demoStore none "s1" 2 "bonz").1 "s1" = some "waiting" ∧
    (some "waiting" : Option String) ≠ some "active" ∧
    (some "waiting" : Option String) ≠ some "completed" := by
  refine ⟨rfl, rfl, by decide, by decide⟩

/-- C3: the host response resolver is broken at its first step — the
keyword loop reads `Object.entries(hostRepliesMap)` but no scope binds
`hostRepliesMap` (the file defines only the array `hostReplies`), so
resolution throws `ReferenceError` for every input.  `send-message` with
the message `"help"` persists and broadcasts the player's message and then
fails: no keyword reply, no fallback reply, no `host-response` emission is
ever produced, contradicting the claimed resolver behaviour. -/
theorem c3_resolver_reference_error :
    resolveHost "help" 0 = .error (.referenceError "hostRepliesMap") ∧
    (∀ (message : String) (randIdx : Nat),
      resolveHost message randIdx = .error (.referenceError "hostRepliesMap")) ∧
    (sendMessage demoStore (some "u1") (some "Alice") "s1" "help" "text" 5 2000 0).2.2 =
      some (.referenceError "hostRepliesMap") ∧
    (sendMessage demoStore (some "u1") (some "Alice") "s1" "help" "text" 5 2000 0).2.1 =
      [(Target.room, .newMessage "Alice" "help" "text" 5)] ∧
    (sendMessage demoStore (some "u1") (some "Alice") "s1" "help" "text" 5 2000 0).1.inventories =
      demoStore.inventories := by
  exact ⟨rfl, fun _ _ => rfl, rfl, rfl, rfl⟩

/-- C2 (amended): a session's status is `waiting` from creation and no
operation ever changes it.  The correct-answer update touches only
`score`, `cluesSolved` and `currentClue`; hint requests touch only
`hintsUsed`; messaging touches only the message log and inventories;
`join-game` creates absent sessions with status `waiting` and leaves
existing ones untouched.  The `active` and `completed` members of the
schema enum are never assigned. -/
theorem c2_status_never_changes :
    (∀ (st : Store) (uid : Option String) (sid : String) (clueId : Int)
        (answer sid2 : String),
      statusOf (submitAnswer st uid sid clueId answer).1 sid2 = statusOf st sid2) ∧
    (∀ (st : Store) (u : Option String) (sid : String) (clueId : Int) (sid2 : String),
      statusOf (requestHint st u sid clueId).1 sid2 = statusOf st sid2) ∧
    (∀ (st : Store) (uid username : Option String) (sid message mtype : String)
        (now delay randIdx : Nat) (sid2 : String),
      statusOf (sendMessage st uid username sid message mtype now delay randIdx).1 sid2 =
        statusOf st sid2) ∧
    (∀ (st : Store) (sid : String) (p : Option String) (now : Nat) (sid2 : String),
      statusOf (joinGame st sid p now).1 sid2 = statusOf st sid2 ∨
      (statusOf st sid2 = none ∧ sid2 = sid ∧
        statusOf (joinGame st sid p now).1 sid2 = some "waiting")) := by
  refine ⟨?_, ?_, ?_, ?_⟩
  · intro st uid sid clueId answer sid2
    cases hc : (grade clueId answer).correct with
    | true =>
      simp only [submitAnswer, hc, if_true, statusOf]
      exact statusOf_findOneAndUpdate st.sessions sid sid2 _
        (fun s => rfl) (fun s => rfl)
    | false =>
      simp [submitAnswer, hc]
  · intro st u sid clueId sid2
    simp only [requestHint, statusOf]
    exact statusOf_findOneAndUpdate st.sessions sid sid2 _
      (fun s => rfl) (fun s => rfl)
  · intro st uid username sid message mtype now delay randIdx sid2
    rfl
  · intro st sid p now sid2
    cases hf : findSession st.sessions sid with
    | some s =>
      left
      simp [joinGame, hf]
    | none =>
      by_cases h2 : sid2 = sid
      · right
        subst h2
        refine ⟨by simp [statusOf, hf], rfl, ?_⟩
        simp only [joinGame, hf, statusOf, findSession, List.find?_append]
        simp only [findSession] at hf
        simp [hf]
      · left
        simp only [joinGame, hf, statusOf]
        simp only [findSession, List.find?_append]
        have hnone : List.find?
            (fun s => s.sessionId == sid2)
            [({ sessionId := sid, playerName := jsOrStr p "Adventurer",
                status := "waiting", currentClue := 1, score := 0, hintsUsed := 0,
                cluesSolved := 0, timeStarted := now } : Session)] = none := by
          simp [Ne.symm h2]
        rw [hnone, Option.or_none]

/-- C5: the reward upsert keeps at most one entry per gift — any sequence
of grants starting from the empty `gifts` array (how `new Inventory`
initialises it) yields at most one entry per gift id; granting a held
gift bumps that entry's quantity by 1 and adds no entry; granting an
unheld gift appends a single entry with quantity 1; and two sequential
grants of the same unheld gift yield exactly one entry with quantity 2. -/
theorem c5_upsert_at_most_one_entry :
    (∀ (grants : List String) (gid : String),
      entryCount (grants.foldl grantGifts []) gid ≤ 1) ∧
    (∀ (gifts : List InvEntry) (gid : String) (e : InvEntry),
      gifts.find? (fun g => g.giftId == gid) = some e →
      qtyOf gifts gid = e.quantity ∧
      qtyOf (grantGifts gifts gid) gid = e.quantity + 1 ∧
      ∀ gid2, entryCount (grantGifts gifts gid) gid2 = entryCount gifts gid2) ∧
    (∀ (gifts : List InvEntry) (gid : String),
      gifts.find? (fun g => g.giftId == gid) = none →
      grantGifts gifts gid = gifts ++ [⟨gid, 1⟩]) ∧
    (∀ (gifts : List InvEntry) (gid : String),
      gifts.find? (fun g => g.giftId == gid) = none →
      entryCount (grantGifts (grantGifts gifts gid) gid) gid = 1 ∧
      qtyOf (grantGifts (grantGifts gifts gid) gid) gid = 2) := by
  have happend : ∀ (gifts : List InvEntry) (gid : String),
      gifts.find? (fun g => g.giftId == gid) = none →
      grantGifts gifts gid = gifts ++ [⟨gid, 1⟩] := by
    intro gifts gid h
    simp [grantGifts, h]
  have hfind1 : ∀ (gifts : List InvEntry) (gid : String),
      gifts.find? (fun g => g.giftId == gid) = none →
      (gifts ++ [(⟨gid, 1⟩ : InvEntry)]).find? (fun g => g.giftId == gid) =
        some ⟨gid, 1⟩ := by
    intro gifts gid h
    simp [List.find?_append, h]
  refine ⟨?_, ?_, happend, ?_⟩
  · intro grants gid
    suffices hgen : ∀ (grants : List String) (gifts : List InvEntry),
        (∀ g2, entryCount gifts g2 ≤ 1) →
        ∀ g2, entryCount (grants.foldl grantGifts gifts) g2 ≤ 1 by
      exact hgen grants [] (fun g2 => by simp [entryCount]) gid
    intro grants
    induction grants with
    | nil => intro gifts h g2; exact h g2
    | cons g gs ih =>
      intro gifts h g2
      exact ih (grantGifts gifts g)
        (fun g3 => entryCount_grantGifts_le gifts g g3 (h g3)) g2
  · intro gifts gid e h
    refine ⟨by simp [qtyOf, h], ?_, ?_⟩
    · simp only [grantGifts, h, qtyOf, find?_bumpFirst gifts gid e h]
    · intro gid2
      simp only [grantGifts, h, entryCount_bumpFirst]
  · intro gifts gid h
    have h2 := hfind1 gifts gid h
    rw [happend gifts gid h]
    constructor
    · rw [grantGifts, h2, entryCount_bumpFirst]
      have h0 : entryCount gifts gid = 0 :=
        entryCount_eq_zero_of_find?_none gifts gid h
      simp only [entryCount, List.filter_append, List.length_append] at h0 ⊢
      simp [h0, List.filter_cons]
    · rw [grantGifts, h2, qtyOf, find?_bumpFirst _ gid ⟨gid, 1⟩ h2]

/-- C5 witness: granting the Golden Key twice from an empty holding
yields one entry of quantity 2. -/
theorem c5_upsert_at_most_one_entry_witness :
    entryCount (grantGifts (grantGifts [] "Golden Key") "Golden Key") "Golden Key" = 1 ∧
    qtyOf (grantGifts (grantGifts [] "Golden Key") "Golden Key") "Golden Key" = 2 :=
  c5_upsert_at_most_one_entry.2.2.2 [] "Golden Key" rfl

/-- C6: in a fresh session (score 0, current clue 1) a correct answer
`"D"` to clue 1 sets the score to 100 and the current clue to 2,
increments the clues-solved counter, broadcasts exactly one
`answer-correct` event to the room, attaches no gift, and touches neither
the message log nor any inventory. -/
theorem c6_first_clue_scenario (st : Store) (uid : Option String) (sid : String)
    (s : Session) (hfind : findSession st.sessions sid = some s)
    (hscore : s.score = 0) (hclue : s.currentClue = 1) :
    findSession (submitAnswer st uid sid 1 "D").1.sessions sid =
      some { s with score := 100, cluesSolved := s.cluesSolved + 1, currentClue := 2 } ∧
    (submitAnswer st uid sid 1 "D").2 =
      [(Target.room, .answerCorrect 1 clue1RightText 2)] ∧
    (submitAnswer st uid sid 1 "D").1.inventories = st.inventories ∧
    (submitAnswer st uid sid 1 "D").1.messages = st.messages := by
  have hg : grade 1 "D" = ⟨true, clue1RightText, none⟩ := rfl
  refine ⟨?_, rfl, rfl, rfl⟩
  simp only [submitAnswer, hg, if_pos trivial]
  rw [findSession_findOneAndUpdate_self st.sessions sid
    (fun s => { s with score := s.score + 100, cluesSolved := s.cluesSolved + 1,
                       currentClue := (1 : Int) + 1 })
    (fun s => rfl), hfind]
  simp [hscore]

/-- C6 witness: the scenario evaluated in the concrete demo store. -/
theorem c6_first_clue_scenario_witness :
    findSession (submitAnswer demoStore (some "u1") "s1" 1 "D").1.sessions "s1" =
      some ⟨"s1", "Alice", "waiting", 2, 100, 0, 1, 0⟩ ∧
    (submitAnswer demoStore (some "u1") "s1" 1 "D").2 =
      [(Target.room, .answerCorrect 1 clue1RightText 2)] ∧
    (submitAnswer demoStore (some "u1") "s1" 1 "D").1.inventories =
      demoStore.inventories ∧
    (submitAnswer demoStore (some "u1") "s1" 1 "D").1.messages =
      demoStore.messages :=
  c6_first_clue_scenario demoStore (some "u1") "s1"
    ⟨"s1", "Alice", "waiting", 1, 0, 0, 0, 0⟩ rfl rfl rfl

/-- C7: `join-game` is idempotent in the session id — a second join with
the same id changes nothing; when the session is absent it is created
with status `waiting`, clue index 1, score 0, and the welcome system
message is appended exactly once; when the session already exists the
store is untouched (no second welcome). -/
theorem c7_join_idempotent (st : Store) (sid : String) (p1 p2 : Option String)
    (t1 t2 : Nat) :
    (joinGame (joinGame st sid p1 t1).1 sid p2 t2).1 = (joinGame st sid p1 t1).1 ∧
    (∀ s, findSession st.sessions sid = some s → (joinGame st sid p1 t1).1 = st) ∧
    (findSession st.sessions sid = none →
      findSession (joinGame st sid p1 t1).1.sessions sid =
        some ⟨sid, jsOrStr p1 "Adventurer", "waiting", 1, 0, 0, 0, t1⟩ ∧
      countWelcome (joinGame st sid p1 t1).1.messages sid =
        countWelcome st.messages sid + 1) ∧
    countWelcome (joinGame (joinGame st sid p1 t1).1 sid p2 t2).1.messages sid =
      countWelcome (joinGame st sid p1 t1).1.messages sid := by
  have hafter : findSession (joinGame st sid p1 t1).1.sessions sid =
      some ((findSession st.sessions sid).getD
        ⟨sid, jsOrStr p1 "Adventurer", "waiting", 1, 0, 0, 0, t1⟩) := by
    cases hf : findSession st.sessions sid with
    | some s => simp [joinGame, hf]
    | none =>
      have hf' : st.sessions.find? (fun s => s.sessionId == sid) = none := hf
      simp [joinGame, hf, findSession, List.find?_append, hf']
  have hsecond : (joinGame (joinGame st sid p1 t1).1 sid p2 t2).1 =
      (joinGame st sid p1 t1).1 := by
    generalize hst1 : (joinGame st sid p1 t1).1 = st1 at hafter
    simp [joinGame, hafter]
  refine ⟨hsecond, ?_, ?_, by rw [hsecond]⟩
  · intro s hs
    simp [joinGame, hs]
  · intro hf
    have hf' : st.sessions.find? (fun s => s.sessionId == sid) = none := hf
    constructor
    · rw [hafter, hf]
      rfl
    · simp only [joinGame, hf]
      simp [countWelcome, List.filter_append, List.filter_cons]

/-- C7 witness: joining twice from the empty store. -/
theorem c7_join_idempotent_witness :
    findSession (joinGame (⟨[], [], []⟩ : Store) "s7" (some "Ann") 1).1.sessions "s7" =
      some ⟨"s7", "Ann", "waiting", 1, 0, 0, 0, 1⟩ ∧
    countWelcome (joinGame (⟨[], [], []⟩ : Store) "s7" (some "Ann") 1).1.messages "s7" =
      countWelcome ([] : List Msg) "s7" + 1 :=
  (c7_join_idempotent ⟨[], [], []⟩ "s7" (some "Ann") none 1 2).2.2.1 rfl

/-- C8: for a 60-message session log with strictly increasing timestamps,
`recentHistory` at the default limit 50 reads the most recent 50 by
descending timestamp and reverses them, returning exactly the last 50
messages in ascending order. -/
theorem c8_recentHistory_last50 (log : List Msg) (sid : String)
    (hsid : ∀ m ∈ log, m.sessionId = sid)
    (hts : log.Pairwise (fun a b => a.timestamp < b.timestamp))
    (hlen : log.length = 60) :
    recentHistory log sid 50 = log.drop 10 := by
  have hfilter : log.filter (fun m => m.sessionId == sid) = log :=
    List.filter_eq_self.mpr (fun m hm => by simp [hsid m hm])
  simp only [recentHistory, hfilter, sortDesc_of_ascending log hts]
  rw [List.take_reverse, List.reverse_reverse, hlen]

/-- C8 witness: the 60-message log evaluated concretely. -/
theorem c8_recentHistory_last50_witness :
    recentHistory demoLog "s8" 50 = demoLog.drop 10 :=
  c8_recentHistory_last50 demoLog "s8" (by decide) (by decide) (by decide)

/-- C9: reward granting is a silent no-op — no inventory write and no
`receive-gift` broadcast — when the connection has no user identity or
the reward name resolves to no Gift document; and an anonymous connection
submitting the correct clue-2 answer is still graded correct and the room
still receives `answer-correct`, while every inventory stays untouched. -/
theorem c9_anonymous_reward_noop :
    (∀ (invs : List Inventory) (r : Option String),
      giftGrantPhase invs none r = (invs, [])) ∧
    (∀ (invs : List Inventory) (uid name : String),
      findGift name = none →
      giftGrantPhase invs (some uid) (some name) = (invs, [])) ∧
    (∀ (st : Store) (sid : String),
      (grade 2 "bonz").correct = true ∧
      (submitAnswer st none sid 2 "bonz").2 =
        [(Target.room, .answerCorrect 2 clue2RightText 3)] ∧
      (submitAnswer st none sid 2 "bonz").1.inventories = st.inventories) := by
  refine ⟨?_, ?_, fun st sid => ⟨rfl, rfl, rfl⟩⟩
  · intro invs r
    cases r with
    | none => rfl
    | some name => cases hf : findGift name <;> simp [giftGrantPhase, hf]
  · intro invs uid name hf
    simp [giftGrantPhase, hf]

/-- C9 witness: the unknown-reward guard evaluated at a name that matches
no seeded gift. -/
theorem c9_anonymous_reward_noop_witness :
    giftGrantPhase [⟨"u1", []⟩] (some "u1") (some "Unobtainium") =
      ([⟨"u1", []⟩], []) :=
  c9_anonymous_reward_noop.2.1 [⟨"u1", []⟩] "u1" "Unobtainium" (by decide)

/-- C10: `POST /api/progress` is idempotent for an already-completed
level — with `completed = true` and the level already recorded, the user
document, the level collection, and hence score, gems, level and
completedLevels are unchanged and the response still reports success
with the current values; only a first completion appends the level and
updates score, gems and level. -/
theorem c10_progress_idempotent (user : PUser) (levels : List LevelDoc)
    (levelId : Int) (scoreArg gemsArg : Option Nat) :
    (levelId ∈ user.completedLevels →
      postProgress user levels levelId true scoreArg gemsArg =
        (user, levels,
          ⟨true, user.level, user.gems, user.score, user.completedLevels⟩)) ∧
    (levelId ∉ user.completedLevels →
      postProgress user levels levelId true scoreArg gemsArg =
        ({ user with
            completedLevels := user.completedLevels ++ [levelId]
            score := user.score + jsOrNum scoreArg 100
            gems := user.gems + jsOrNum gemsArg 20
            level := (user.score + jsOrNum scoreArg 100) / 100 + 1 },
          unlockLevel levels (levelId + 1),
          ⟨true, (user.score + jsOrNum scoreArg 100) / 100 + 1,
            user.gems + jsOrNum gemsArg 20,
            user.score + jsOrNum scoreArg 100,
            user.completedLevels ++ [levelId]⟩)) := by
  constructor
  · intro h
    simp [postProgress, h]
  · intro h
    simp [postProgress, h]

/-- C10 witness: reposting a completed level changes nothing. -/
theorem c10_progress_idempotent_witness :
    postProgress ⟨"eve", 2, 120, 100, [3]⟩ [] 3 true none none =
      (⟨"eve", 2, 120, 100, [3]⟩, [], ⟨true, 2, 120, 100, [3]⟩) :=
  (c10_progress_idempotent ⟨"eve", 2, 120, 100, [3]⟩ [] 3 none none).1
    (by decide)

end Tales
